import Mathlib

/-!
# Verification of the `tunn` tunnel core

Shallow embedding of the tunnel-establishment and ingress-forwarding engine of
the `tunn` repository, with theorems checking the natural-language
specification against the code.

Sources embedded:
* `pkg/proxy/socks5.go` (`handleSOCKS5`, `sendError`, `sendSuccess`)
* `pkg/proxy/server.go` / `internal/tunnel/ssh.go` (`OpenSSHChannel`, `dialWithRetry`)
* `pkg/proxy/http.go` (`handleConnect`, `parseTarget`, `sendError`)
* `pkg/utils/network.go` (`ParseHostPort`) and Go's `net.SplitHostPort`,
  `net.JoinHostPort`, `strconv.Atoi` which it calls
* `pkg/connection/websocket.go` (`ReplacePlaceholders`, `ReadHeaders`,
  `EstablishWSTunnel`)
* `internal/tunnel/websocket.go` (`ReplacePlaceholders`, `EstablishWSTunnel`)

Byte streams are modelled as `List Nat` (each element a byte value) and Go
strings as `List Char` (one `Char` per byte; all inputs of interest are
single-byte characters). Reads from a network connection are modelled by
consuming a prefix of an input list; a short stream models a read error.
-/

namespace Tunn

/-! ## Generic list/string helpers mirroring Go library functions -/

/-- Read a single byte from the stream (`conn.Read` with a 1-byte buffer).
`none` models a read error (closed/empty stream). -/
def readByte (s : List Nat) : Option (Nat × List Nat) :=
  match s with
  | [] => none
  | b :: rest => some (b, rest)

/-- Read exactly `n` bytes (`io.ReadFull`); `none` models a read error. -/
def readFull : Nat → List Nat → Option (List Nat × List Nat)
  | 0, s => some ([], s)
  | _ + 1, [] => none
  | n + 1, b :: s =>
    match readFull n s with
    | none => none
    | some (bs, rest) => some (b :: bs, rest)

@[simp] theorem readByte_cons (b : Nat) (rest : List Nat) :
    readByte (b :: rest) = some (b, rest) := rfl

@[simp] theorem readByte_nil : readByte [] = none := rfl

@[simp] theorem readFull_zero (s : List Nat) : readFull 0 s = some ([], s) := rfl

@[simp] theorem readFull_succ_cons (n b : Nat) (s : List Nat) :
    readFull (n + 1) (b :: s) =
      match readFull n s with
      | none => none
      | some (bs, rest) => some (b :: bs, rest) := rfl

theorem readFull_append (l₁ l₂ : List Nat) :
    readFull l₁.length (l₁ ++ l₂) = some (l₁, l₂) := by
  induction l₁ with
  | nil => rfl
  | cons b bs ih => simp [readFull, ih]

/-- Boolean prefix test on lists (`bytes.HasPrefix` / position match). -/
def isPrefixB [DecidableEq α] : List α → List α → Bool
  | [], _ => true
  | _ :: _, [] => false
  | a :: as, b :: bs => a = b && isPrefixB as bs

/-- Boolean suffix test (`bytes.HasSuffix`). -/
def isSuffixB [DecidableEq α] (pat s : List α) : Bool :=
  isPrefixB pat.reverse s.reverse

/-- Does `pat` occur as a contiguous run inside `s` (`strings.Contains`)? -/
def containsB [DecidableEq α] (pat : List α) : List α → Bool
  | [] => pat.isEmpty
  | a :: rest => isPrefixB pat (a :: rest) || containsB pat rest

/-- `strings.ReplaceAll s old new` for a non-empty pattern `old`:
leftmost, non-overlapping occurrences of `old` are replaced by `new`.
(The Go empty-pattern behaviour is never exercised by this code base, whose
patterns are `[host]` and `[crlf]`.) -/
def replaceAll [DecidableEq α] (old new : List α) : List α → List α
  | [] => []
  | a :: rest =>
    if old.length > 0 && isPrefixB old (a :: rest) then
      new ++ replaceAll old new ((a :: rest).drop old.length)
    else
      a :: replaceAll old new rest
termination_by s => s.length
decreasing_by
  · simp only [List.length_drop, List.length_cons]
    rename_i h
    simp only [gt_iff_lt, Bool.and_eq_true, decide_eq_true_eq] at h
    omega
  · simp

/-- `bytes.Split s sep` for a non-empty separator: the pieces of `s` around
each leftmost, non-overlapping occurrence of `sep` (n occurrences give
n+1 pieces). -/
def goSplit [DecidableEq α] (sep : List α) : List α → List (List α)
  | [] => [[]]
  | a :: rest =>
    if sep.length > 0 && isPrefixB sep (a :: rest) then
      [] :: goSplit sep ((a :: rest).drop sep.length)
    else
      match goSplit sep rest with
      | [] => [[a]]
      | piece :: pieces => (a :: piece) :: pieces
termination_by s => s.length
decreasing_by
  · simp only [List.length_drop, List.length_cons]
    rename_i h
    simp only [gt_iff_lt, Bool.and_eq_true, decide_eq_true_eq] at h
    omega
  · simp

/-! ## Rendering helpers (`fmt.Sprintf` verbs used by the SOCKS5 parser) -/

/-- `%d` of a byte value: decimal digits. -/
def decStr (n : Nat) : List Char := (Nat.repr n).data

/-- `%x` of a 16-bit value: lowercase hex, no leading zeros (`"0"` for 0). -/
def hexStr (n : Nat) : List Char := Nat.toDigits 16 n

/-- Go `string(bytes)`: each byte becomes one character. -/
def bytesStr (bs : List Nat) : List Char := bs.map Char.ofNat

/-- `binary.BigEndian.Uint16` of two bytes. -/
def beUint16 (hi lo : Nat) : Nat := 256 * hi + lo

/-! ## SOCKS5 ingress (`pkg/proxy/socks5.go`, `handleSOCKS5`;
the byte-identical handler also appears in `internal/tunnel/ssh.go`). -/

/-- `sendError`: the 10-byte SOCKS5 error reply. -/
def sendError (errCode : Nat) : List Nat := [5, errCode, 0, 1, 0, 0, 0, 0, 0, 0]

/-- `sendSuccess`: the 10-byte SOCKS5 success reply. -/
def sendSuccess : List Nat := [5, 0, 0, 1, 0, 0, 0, 0, 0, 0]

/-- `fmt.Sprintf("%d.%d.%d.%d", a0, a1, a2, a3)`. -/
def ipv4Str (a : List Nat) : List Char :=
  decStr (a.getD 0 0) ++ '.' :: decStr (a.getD 1 0) ++ '.' :: decStr (a.getD 2 0)
    ++ '.' :: decStr (a.getD 3 0)

/-- `fmt.Sprintf("[%x:%x:%x:%x:%x:%x:%x:%x]", ...)` over the eight big-endian
16-bit groups of a 16-byte IPv6 address. -/
def ipv6Str (a : List Nat) : List Char :=
  have g : Nat → List Char := fun i => hexStr (beUint16 (a.getD (2 * i) 0) (a.getD (2 * i + 1) 0))
  '[' :: g 0 ++ ':' :: g 1 ++ ':' :: g 2 ++ ':' :: g 3 ++ ':' :: g 4 ++ ':' :: g 5
    ++ ':' :: g 6 ++ ':' :: g 7 ++ [']']

/-- Result of parsing the SOCKS5 destination address by address type. -/
inductive AddrParse where
  | ok (host : List Char) (rest : List Nat)
  | errRead
  | errAtyp
  deriving DecidableEq, Repr

/-- The `switch atyp` block of `handleSOCKS5`: parse the destination host by
address type (1 = IPv4, 3 = domain, 4 = IPv6); any other type is rejected. -/
def parseAddr (atyp : Nat) (s : List Nat) : AddrParse :=
  if atyp = 1 then
    match readFull 4 s with
    | none => .errRead
    | some (addr, rest) => .ok (ipv4Str addr) rest
  else if atyp = 3 then
    match readByte s with
    | none => .errRead
    | some (length, s1) =>
      match readFull length s1 with
      | none => .errRead
      | some (domain, rest) => .ok (bytesStr domain) rest
  else if atyp = 4 then
    match readFull 16 s with
    | none => .errRead
    | some (addr, rest) => .ok (ipv6Str addr) rest
  else .errAtyp

/-- Observable outcome of one SOCKS5 session: the byte blocks written to the
client (each `conn.Write` call), and the destination passed to
`OpenSSHChannel` (i.e. to `ssh.Dial`) when a channel open is attempted. -/
structure SocksOutcome where
  writes : List (List Nat)
  dial : Option (List Char × Nat)
  deriving DecidableEq, Repr

/-- `handleSOCKS5`, starting after the version byte (which `handleClient` has
already consumed): read the method count and methods, reply `[5,0]`, read the
4-byte request header, parse the destination, read the port, and on success
reply `sendSuccess` and open the channel to the parsed destination. -/
def handleSOCKS5 (input : List Nat) : SocksOutcome :=
  match readByte input with
  | none => ⟨[], none⟩
  | some (nmethods, s1) =>
    match readFull nmethods s1 with
    | none => ⟨[], none⟩
    | some (_, s2) =>
      -- clientConn.Write([]byte{5, 0}) : method selection, no auth
      match readFull 4 s2 with
      | none => ⟨[[5, 0]], none⟩
      | some (hdr, s3) =>
        let cmd := hdr.getD 1 0
        let atyp := hdr.getD 3 0
        if cmd ≠ 1 then ⟨[[5, 0], sendError 7], none⟩
        else
          match parseAddr atyp s3 with
          | .errRead => ⟨[[5, 0], sendError 1], none⟩
          | .errAtyp => ⟨[[5, 0], sendError 8], none⟩
          | .ok host s4 =>
            match readFull 2 s4 with
            | none => ⟨[[5, 0], sendError 1], none⟩
            | some (portBytes, _) =>
              let port := beUint16 (portBytes.getD 0 0) (portBytes.getD 1 0)
              ⟨[[5, 0], sendSuccess], some (host, port)⟩

end Tunn

namespace Tunn

/-! ## Claims C1 and C5: SOCKS5 request handling -/

/-- C1. For every well-formed SOCKS5 CONNECT request whose address-type byte is
1, 3, or 4, the ingress parses the destination exactly from the request bytes —
type 1: the next 4 bytes rendered as dotted-decimal IPv4; type 3: a 1-byte
length followed by that many bytes taken verbatim as the host string; type 4:
the next 16 bytes rendered as 8 colon-separated hex groups in brackets — then
reads a 2-byte big-endian port, and the subsequent channel open (`ssh.Dial` via
`OpenSSHChannel`) is attempted with exactly that (host, port) destination.
The input is the client byte stream after the version byte: a method count `n`,
`n` method bytes, the 4-byte request header, the address, and the port. -/
theorem socks5_connect_parses_exact_destination :
    (∀ (n : Nat) (ms a : List Nat) (p1 p2 : Nat), ms.length = n → a.length = 4 →
      handleSOCKS5 ((n :: ms) ++ [5, 1, 0, 1] ++ a ++ [p1, p2]) =
        ⟨[[5, 0], sendSuccess], some (ipv4Str a, beUint16 p1 p2)⟩)
    ∧ (∀ (n : Nat) (ms d : List Nat) (p1 p2 : Nat), ms.length = n →
      handleSOCKS5 ((n :: ms) ++ [5, 1, 0, 3] ++ (d.length :: d) ++ [p1, p2]) =
        ⟨[[5, 0], sendSuccess], some (bytesStr d, beUint16 p1 p2)⟩)
    ∧ (∀ (n : Nat) (ms a : List Nat) (p1 p2 : Nat), ms.length = n → a.length = 16 →
      handleSOCKS5 ((n :: ms) ++ [5, 1, 0, 4] ++ a ++ [p1, p2]) =
        ⟨[[5, 0], sendSuccess], some (ipv6Str a, beUint16 p1 p2)⟩) := by
  refine ⟨?_, ?_, ?_⟩
  · intro n ms a p1 p2 hms ha
    subst hms
    have h4 : readFull 4 (a ++ [p1, p2]) = some (a, [p1, p2]) :=
      ha ▸ readFull_append a [p1, p2]
    simp [handleSOCKS5, parseAddr, readFull_append, h4]
  · intro n ms d p1 p2 hms
    subst hms
    simp [handleSOCKS5, parseAddr, readFull_append]
  · intro n ms a p1 p2 hms ha
    subst hms
    have h16 : readFull 16 (a ++ [p1, p2]) = some (a, [p1, p2]) :=
      ha ▸ readFull_append a [p1, p2]
    simp [handleSOCKS5, parseAddr, readFull_append, h16]

/-- Witness for C1, on the spec's end-to-end example: method bytes `01 00`,
request `05 01 00 01 5D B8 D8 22 00 50` (IPv4 93.184.216.34, port 80). -/
theorem socks5_connect_parses_exact_destination_witness :
    handleSOCKS5 [1, 0, 5, 1, 0, 1, 93, 184, 216, 34, 0, 80] =
      ⟨[[5, 0], sendSuccess], some ("93.184.216.34".data, 80)⟩ := by
  have h := socks5_connect_parses_exact_destination.1 1 [0] [93, 184, 216, 34] 0 80 rfl rfl
  have hhost : ipv4Str [93, 184, 216, 34] = "93.184.216.34".data := by decide
  have hport : beUint16 0 80 = 80 := by decide
  rw [hhost, hport] at h
  simpa using h

/-- C5. A SOCKS5 request whose command byte is not 1 (CONNECT) gets the fixed
10-byte reply `[5, 7, 0, 1, 0, 0, 0, 0, 0, 0]` and no channel open is ever
attempted; an address-type byte outside {1,3,4} gets the same layout with
code 8; and every error and success reply has exactly the layout
version(5), code, reserved(0), addr-type(1), four zero address bytes, two
zero port bytes. -/
theorem socks5_rejects_unsupported :
    (∀ (n : Nat) (ms : List Nat) (v c r atyp : Nat) (rest : List Nat),
      ms.length = n → c ≠ 1 →
      handleSOCKS5 ((n :: ms) ++ v :: c :: r :: atyp :: rest) =
        ⟨[[5, 0], [5, 7, 0, 1, 0, 0, 0, 0, 0, 0]], none⟩)
    ∧ (∀ (n : Nat) (ms : List Nat) (v r atyp : Nat) (rest : List Nat),
      ms.length = n → atyp ≠ 1 → atyp ≠ 3 → atyp ≠ 4 →
      handleSOCKS5 ((n :: ms) ++ v :: 1 :: r :: atyp :: rest) =
        ⟨[[5, 0], [5, 8, 0, 1, 0, 0, 0, 0, 0, 0]], none⟩)
    ∧ (∀ code : Nat, sendError code = [5, code, 0, 1, 0, 0, 0, 0, 0, 0])
    ∧ sendSuccess = [5, 0, 0, 1, 0, 0, 0, 0, 0, 0] := by
  refine ⟨?_, ?_, fun _ => rfl, rfl⟩
  · intro n ms v c r atyp rest hms hc
    subst hms
    simp [handleSOCKS5, sendError, readFull_append, hc]
  · intro n ms v r atyp rest hms h1 h3 h4
    subst hms
    simp [handleSOCKS5, parseAddr, sendError, readFull_append, h1, h3, h4]

/-- Witness for C5, on the spec's BIND example: command byte 2 yields the
code-7 reply and no channel open. -/
theorem socks5_rejects_unsupported_witness :
    handleSOCKS5 [1, 0, 5, 2, 0, 1, 1, 2, 3, 4, 0, 80] =
      ⟨[[5, 0], [5, 7, 0, 1, 0, 0, 0, 0, 0, 0]], none⟩ := by
  have h := socks5_rejects_unsupported.1 1 [0] 5 2 0 1 [1, 2, 3, 4, 0, 80] rfl (by decide)
  simpa using h

/-! ## Go standard-library address helpers used by the HTTP ingress
(`net.SplitHostPort`, `net.JoinHostPort`, `strconv.Atoi`). -/

/-- Index of the first occurrence of `c` (`bytealg.IndexByteString`). -/
def idxOf (c : Char) : List Char → Option Nat
  | [] => none
  | a :: rest => if a = c then some 0 else (idxOf c rest).map (· + 1)

/-- Index of the last occurrence of `c` (the `last` helper in `net`). -/
def lastIdxOf (c : Char) : List Char → Option Nat
  | [] => none
  | a :: rest =>
    match lastIdxOf c rest with
    | some i => some (i + 1)
    | none => if a = c then some 0 else none

/-- `net.SplitHostPort`: split `host:port` (with optional `[...]` around the
host) at the last colon. All distinct Go error cases (missing port, too many
colons, missing/unexpected brackets) collapse to `none`. -/
def splitHostPort (hostPort : List Char) : Option (List Char × List Char) :=
  match lastIdxOf ':' hostPort with
  | none => none -- missing port in address
  | some i =>
    if hostPort.headD ' ' = '[' then
      match idxOf ']' hostPort with
      | none => none -- missing ']' in address
      | some e =>
        if e + 1 = hostPort.length then none -- missing port in address
        else if e + 1 = i then
          -- host = hostPort[1:e]; j, k = 1, e+1
          if idxOf '[' (hostPort.drop 1) ≠ none then none -- unexpected '['
          else if idxOf ']' (hostPort.drop (e + 1)) ≠ none then none -- unexpected ']'
          else some ((hostPort.drop 1).take (e - 1), hostPort.drop (i + 1))
        else none -- too many colons / missing port
    else
      if idxOf ':' (hostPort.take i) ≠ none then none -- too many colons
      else if idxOf '[' hostPort ≠ none then none -- unexpected '['
      else if idxOf ']' hostPort ≠ none then none -- unexpected ']'
      else some (hostPort.take i, hostPort.drop (i + 1))

/-- `net.JoinHostPort`: bracket the host when it contains a colon. -/
def joinHostPort (host port : List Char) : List Char :=
  if ':' ∈ host then '[' :: (host ++ ']' :: ':' :: port) else host ++ ':' :: port

/-- Numeric value of a digit string. -/
def digitsVal (ds : List Char) : Nat :=
  ds.foldl (fun acc c => 10 * acc + (c.toNat - '0'.toNat)) 0

/-- `strconv.Atoi`: optional sign, then decimal digits; empty or non-digit
input is an error. (Modelled over unbounded integers: the int64 overflow
bound is irrelevant to the port values in scope.) -/
def goAtoi (s : List Char) : Option Int :=
  match s with
  | [] => none
  | c :: rest =>
    let p : Bool × List Char :=
      if c = '-' then (true, rest)
      else if c = '+' then (false, rest)
      else (false, c :: rest)
    if p.2 = [] then none
    else if p.2.all Char.isDigit then
      some (if p.1 then -(digitsVal p.2 : Int) else (digitsVal p.2 : Int))
    else none

/-- `pkg/utils/network.go`, `ParseHostPort` (the same function also appears as
`parseHostPort` in `internal/tunnel/ssh.go`): on any split failure the whole
input becomes the host with the default port and *no* error; named ports
`https`/`http` map to 443/80; otherwise the port text must parse as a decimal
number, else error (`none`). -/
def parseHostPort (hostPort : List Char) (defaultPort : Int) : Option (List Char × Int) :=
  match splitHostPort hostPort with
  | none => some (hostPort, defaultPort)
  | some (host, portStr) =>
    if portStr = "https".data then some (host, 443)
    else if portStr = "http".data then some (host, 80)
    else
      match goAtoi portStr with
      | none => none -- invalid port
      | some port => some (host, port)

/-! ## HTTP ingress (`pkg/proxy/http.go`; the byte-identical handlers also
appear in `internal/tunnel/ssh.go`). -/

/-- `sendError` in `pkg/proxy/http.go`: minimal HTTP error response. -/
def sendHTTPError (statusCode : Nat) (statusText : List Char) : List Char :=
  "HTTP/1.1 ".data ++ decStr statusCode ++ ' ' :: statusText
    ++ "\r\nContent-Length: 0\r\nConnection: close\r\n\r\n".data

/-- The CONNECT success response written before opening the channel. -/
def connectionEstablished : List Char := "HTTP/1.1 200 Connection established\r\n\r\n".data

/-- Observable outcome of an HTTP ingress handler: byte blocks written to the
client and the destination of the attempted channel open (`ssh.Dial`). -/
structure HttpOutcome where
  writes : List (List Char)
  dial : Option (List Char × Int)
  deriving DecidableEq, Repr

/-- `handleConnect`: parse `host[:port]` from the CONNECT target (`req.Host`)
with default port 443; on failure reply 400; on success write the
`200 Connection established` response and open the channel to (host, port). -/
def handleConnect (reqHost : List Char) : HttpOutcome :=
  match parseHostPort reqHost 443 with
  | none => ⟨[sendHTTPError 400 "Bad Request".data], none⟩
  | some (host, port) => ⟨[connectionEstablished], some (host, port)⟩

/-- The fields of `req.URL` read by `parseTarget` (produced by Go's `net/url`
parser, which is external to this repository): `scheme` (empty iff the URL is
relative, i.e. `IsAbs()` is false), `hostname`/`portStr` (the `Hostname()` and
`Port()` accessors, `portStr = []` when no explicit port), and the
`RequestURI()` path. -/
structure GoURL where
  scheme : List Char
  hostname : List Char
  portStr : List Char
  requestURI : List Char

/-- `parseTarget`: absolute URLs supply host/port/path themselves (explicit
port if present, else 443 for https and 80 otherwise); relative URLs fall back
to the `Host` header via `ParseHostPort` with default port 80; a relative URL
with an empty `Host` header is an error. -/
def parseTarget (u : GoURL) (reqHost : List Char) : Option (List Char × Int × List Char) :=
  if u.scheme ≠ [] then
    if u.portStr ≠ [] then
      match goAtoi u.portStr with
      | none => none -- invalid port in URL
      | some p => some (u.hostname, p, u.requestURI)
    else
      some (u.hostname, if u.scheme = "https".data then 443 else 80, u.requestURI)
  else
    if reqHost = [] then none -- no Host header in HTTP request
    else
      match parseHostPort reqHost 80 with
      | none => none -- invalid Host header
      | some (h, p) => some (h, p, u.requestURI)

/-- `handleRequest`, up to the channel-open attempt: a target-parsing error
replies 400; otherwise the channel open is attempted to the parsed
destination (request forwarding past that point is outside this model). -/
def handleRequest (u : GoURL) (reqHost : List Char) : HttpOutcome :=
  match parseTarget u reqHost with
  | none => ⟨[sendHTTPError 400 "Bad Request".data], none⟩
  | some (h, p, _) => ⟨[], some (h, p)⟩

/-! ## Claims C6, C7, C10: HTTP ingress target parsing -/

/-- C6. For a non-CONNECT request with an absolute-URI target the destination
port is the URI's explicit port when present, else 443 for the https scheme
and 80 otherwise; for a relative target host and port come from the `Host`
header with default port 80; a relative target with an empty `Host` header
yields a `400 Bad Request` reply. -/
theorem http_request_target_selection :
    (∀ (u : GoURL) (reqHost : List Char) (p : Int),
      u.scheme ≠ [] → u.portStr ≠ [] → goAtoi u.portStr = some p →
      parseTarget u reqHost = some (u.hostname, p, u.requestURI))
    ∧ (∀ (u : GoURL) (reqHost : List Char),
      u.scheme ≠ [] → u.portStr = [] →
      parseTarget u reqHost =
        some (u.hostname, (if u.scheme = "https".data then 443 else 80), u.requestURI))
    ∧ (∀ (u : GoURL) (reqHost h : List Char) (p : Int),
      u.scheme = [] → reqHost ≠ [] → parseHostPort reqHost 80 = some (h, p) →
      parseTarget u reqHost = some (h, p, u.requestURI))
    ∧ (∀ u : GoURL, u.scheme = [] →
      handleRequest u [] = ⟨[sendHTTPError 400 "Bad Request".data], none⟩) := by
  refine ⟨?_, ?_, ?_, ?_⟩
  · intro u reqHost p hs hp hga
    simp [parseTarget, hs, hp, hga]
  · intro u reqHost hs hp
    simp [parseTarget, hs, hp]
  · intro u reqHost h p hs hr hph
    simp [parseTarget, hs, hr, hph]
  · intro u hs
    simp [handleRequest, parseTarget, hs]

/-- Witness for C6: `GET https://example.com/ HTTP/1.1` style absolute target
with no explicit port resolves to port 443. -/
theorem http_request_target_selection_witness :
    parseTarget ⟨"https".data, "example.com".data, [], "/".data⟩ [] =
      some ("example.com".data, 443, "/".data) := by
  have h := http_request_target_selection.2.1 ⟨"https".data, "example.com".data, [], "/".data⟩
    [] (by decide) rfl
  simpa using h

/-- C7. `handleConnect` parses `host[:port]` from the CONNECT target with
default port 443 and the named-port convention https→443, http→80, else the
literal number, and on success writes exactly
`HTTP/1.1 200 Connection established\r\n\r\n` before opening the channel to
that destination. -/
theorem http_connect_parses_and_replies :
    (∀ (reqHost host : List Char) (port : Int),
      parseHostPort reqHost 443 = some (host, port) →
      handleConnect reqHost = ⟨[connectionEstablished], some (host, port)⟩)
    ∧ connectionEstablished = "HTTP/1.1 200 Connection established\r\n\r\n".data
    ∧ (∀ s host portStr, splitHostPort s = some (host, portStr) →
      parseHostPort s 443 =
        if portStr = "https".data then some (host, 443)
        else if portStr = "http".data then some (host, 80)
        else (goAtoi portStr).map (fun p => (host, p)))
    ∧ (∀ s, splitHostPort s = none → parseHostPort s 443 = some (s, 443)) := by
  refine ⟨?_, rfl, ?_, ?_⟩
  · intro reqHost host port h
    simp [handleConnect, h]
  · intro s host portStr h
    by_cases h1 : portStr = "https".data
    · simp [parseHostPort, h, h1]
    · by_cases h2 : portStr = "http".data
      · simp [parseHostPort, h, h1, h2]
      · rcases hga : goAtoi portStr with _ | p <;> simp [parseHostPort, h, h1, h2, hga]
  · intro s h
    simp [parseHostPort, h]

/-- Witness for C7, on the spec's end-to-end example target
`example.com:443`. -/
theorem http_connect_parses_and_replies_witness :
    handleConnect "example.com:443".data =
      ⟨[connectionEstablished], some ("example.com".data, 443)⟩ :=
  http_connect_parses_and_replies.1 "example.com:443".data "example.com".data 443 (by decide)

/-- C10. `ParseHostPort` never reports an error when `host:port` splitting
fails: it returns the whole input as host with the default port. An error
arises only when splitting succeeds but the port text is neither `https`,
`http`, nor a decimal number — and the CONNECT handler's 400 reply for an
invalid host fires exactly on that error. -/
theorem parse_host_port_error_conditions :
    (∀ (s : List Char) (d : Int), splitHostPort s = none → parseHostPort s d = some (s, d))
    ∧ (∀ (s : List Char) (d : Int), parseHostPort s d = none →
      ∃ host portStr, splitHostPort s = some (host, portStr) ∧
        portStr ≠ "https".data ∧ portStr ≠ "http".data ∧ goAtoi portStr = none)
    ∧ (∀ reqHost : List Char,
      handleConnect reqHost = ⟨[sendHTTPError 400 "Bad Request".data], none⟩ ↔
        parseHostPort reqHost 443 = none) := by
  refine ⟨?_, ?_, ?_⟩
  · intro s d h
    simp [parseHostPort, h]
  · intro s d h
    rcases hsp : splitHostPort s with _ | ⟨host, portStr⟩
    · simp [parseHostPort, hsp] at h
    · by_cases h1 : portStr = "https".data
      · simp [parseHostPort, hsp, h1] at h
      · by_cases h2 : portStr = "http".data
        · simp [parseHostPort, hsp, h1, h2] at h
        · rcases hga : goAtoi portStr with _ | p
          · exact ⟨host, portStr, rfl, h1, h2, hga⟩
          · simp [parseHostPort, hsp, h1, h2, hga] at h
  · intro reqHost
    rcases hph : parseHostPort reqHost 443 with _ | ⟨host, port⟩
    · simp [handleConnect, hph]
    · simp [handleConnect, hph]

/-- Witness for C10: a bare hostname with no colon fails splitting and yields
the input with the default port, error-free. -/
theorem parse_host_port_error_conditions_witness :
    parseHostPort "example.com".data 443 = some ("example.com".data, 443) :=
  parse_host_port_error_conditions.1 "example.com".data 443 (by decide)

/-! ## Disguise handshake

Two implementations exist in the repository. `pkg/connection/websocket.go`
(`ReplacePlaceholders`, `ReadHeaders`, `EstablishWSTunnel`, prefixed `conn`
below) is invoked by the `Establisher`s that `internal/tunnel/manager.go`
wires up; `internal/tunnel/websocket.go` (prefixed `tun` below) is invoked
directly by the `cmd` subcommands reachable from `main`. Both are modelled,
over the connection already produced by the connection strategy: `serverInput`
is the byte stream the remote side answers with. -/

/-- Handshake failure modes: a read error while scanning for the response
terminator, or a rejected upgrade carrying the full response text. -/
inductive WSError where
  | readFailed
  | upgradeFailed (response : List Char)
  deriving DecidableEq, Repr

/-- Observable outcome of one handshake: each `conn.Write` payload in order,
the number of response bytes consumed, and the error if any (`none` =
upgraded successfully, the stream is returned to the caller). -/
structure WSOutcome where
  writes : List (List Char)
  consumed : Nat
  err : Option WSError
  deriving DecidableEq, Repr

/-- `ReadHeaders`: accumulate response bytes one at a time until the data ends
with `\r\n\r\n`; running out of stream models a read error. Returns the full
header block and the unread remainder. -/
def readHeaders (acc : List Char) : List Char → Option (List Char × List Char)
  | [] => none
  | c :: rest =>
    let acc' := acc ++ [c]
    if acc'.length ≥ 4 && isSuffixB "\r\n\r\n".data acc' then some (acc', rest)
    else readHeaders acc' rest

/-- `ReplacePlaceholders` in `pkg/connection/websocket.go`: host value is the
`hostHeader` argument, or `net.JoinHostPort(targetHost, targetPort)` when that
is empty; then `[host]` and `[crlf]` are substituted in that order. -/
def connReplacePlaceholders (payload targetHost targetPort hostHeader : List Char) : List Char :=
  let hostValue := if hostHeader = [] then joinHostPort targetHost targetPort else hostHeader
  replaceAll "[crlf]".data "\r\n".data (replaceAll "[host]".data hostValue payload)

/-- `ReplacePlaceholders` in `internal/tunnel/websocket.go`: host value is the
front domain, or `fmt.Sprintf("%s:%s", targetHost, targetPort)` when empty. -/
def tunReplacePlaceholders (payload targetHost targetPort frontDomain : List Char) : List Char :=
  let hostValue := if frontDomain = [] then targetHost ++ ':' :: targetPort else frontDomain
  replaceAll "[crlf]".data "\r\n".data (replaceAll "[host]".data hostValue payload)

/-- `EstablishWSTunnel` in `pkg/connection/websocket.go`: an empty payload
returns the connection untouched; otherwise the whole substituted payload is
written in one `conn.Write`, the response headers are read, and the upgrade
succeeds iff they contain `HTTP/1.1 101` or `HTTP/1.0 101`. -/
def connEstablishWS (payload targetHost targetPort hostHeader serverInput : List Char) :
    WSOutcome :=
  if payload = [] then ⟨[], 0, none⟩
  else
    let wsPayload := connReplacePlaceholders payload targetHost targetPort hostHeader
    match readHeaders [] serverInput with
    | none => ⟨[wsPayload], serverInput.length, some .readFailed⟩
    | some (headers, _) =>
      if containsB "HTTP/1.1 101".data headers || containsB "HTTP/1.0 101".data headers then
        ⟨[wsPayload], headers.length, none⟩
      else ⟨[wsPayload], headers.length, some (.upgradeFailed headers)⟩

/-- The characters `bytes.TrimSpace` strips (`unicode.IsSpace` over the
one-byte characters this model ranges over). -/
def goIsSpace (c : Char) : Bool :=
  c = ' ' || c = '\t' || c = '\n' || c = '\x0b' || c = '\x0c' || c = '\r' ||
    c = '\x85' || c = '\xa0'

/-- `EstablishWSTunnel` in `internal/tunnel/websocket.go` (payload phase, with
the connection already established): substitute placeholders, split into
blocks at `\r\n\r\n`, send the first block with the terminator re-appended,
read the response, succeed iff the response contains `101` anywhere, then send
each remaining block whose `bytes.TrimSpace` is non-empty, with the
terminator re-appended. -/
def tunEstablishWS (payload targetHost targetPort frontDomain serverInput : List Char) :
    WSOutcome :=
  let payloadBytes := tunReplacePlaceholders payload targetHost targetPort frontDomain
  let blocks := goSplit "\r\n\r\n".data payloadBytes
  let firstWrite := blocks.headD [] ++ "\r\n\r\n".data
  match readHeaders [] serverInput with
  | none => ⟨[firstWrite], serverInput.length, some .readFailed⟩
  | some (response, _) =>
    if containsB "101".data response then
      ⟨firstWrite ::
        ((blocks.drop 1).filter (fun b => b.any (fun c => !goIsSpace c))).map
          (· ++ "\r\n\r\n".data),
        response.length, none⟩
    else ⟨[firstWrite], response.length, some (.upgradeFailed response)⟩

/-- The first line of a response block (up to the first `\r`) — the status
line the specification's acceptance rule refers to. -/
def statusLine (response : List Char) : List Char := response.takeWhile (· ≠ '\r')

/-- `DirectEstablisher.Establish` and `ProxyEstablisher.Establish`
(`pkg/connection/establisher.go`) call
`EstablishWSTunnel(conn, cfg.HTTPPayload, cfg.SSHHost, cfg.SSHPort, cfg.SSHHost)`:
the host-header argument is the bare target host. -/
structure TunnelConfig where
  sshHost : List Char
  sshPort : List Char
  httpPayload : List Char

/-- The (payload, targetHost, targetPort, hostHeader) argument tuple the
establishers pass to `EstablishWSTunnel`. -/
def directEstablishWSArgs (cfg : TunnelConfig) :
    List Char × List Char × List Char × List Char :=
  (cfg.httpPayload, cfg.sshHost, cfg.sshPort, cfg.sshHost)

/-! ## Claim C2: placeholder substitution -/

/-- C2 counterexample. With an empty front-domain (host-header) argument and
the IPv6 target host `::1`, port `22`, the payload `[host]` is substituted to
`[::1]:22` — `net.JoinHostPort` brackets a colon-bearing host — and not to
the unqualified `target.host:target.port` concatenation `::1:22` the claim
states. -/
theorem replace_placeholders_ipv6_counterexample :
    connReplacePlaceholders "[host]".data "::1".data "22".data [] = "[::1]:22".data
    ∧ "[::1]:22".data ≠ "::1:22".data := by
  constructor
  · have hj : joinHostPort "::1".data "22".data = "[::1]:22".data := by decide
    simp [connReplacePlaceholders, hj, replaceAll, isPrefixB]
  · decide

/-- C2 amended. The substituted payload replaces every `[host]` with the
front-domain (host-header) argument when given, and with
`net.JoinHostPort(targetHost, targetPort)` when that argument is empty —
which is `targetHost:targetPort` for every host without a colon, and
`[targetHost]:targetPort` for a colon-bearing (IPv6) host; every `[crlf]` is
replaced with `\r\n`; on the spec's example the substituted bytes are exactly
`GET / HTTP/1.1\r\nHost: a.com:80\r\n\r\n`; and the Direct/Proxy establishers
pass the bare target host as the host-header argument. -/
theorem replace_placeholders_join_rule :
    (∀ payload targetHost targetPort hostHeader : List Char, hostHeader ≠ [] →
      connReplacePlaceholders payload targetHost targetPort hostHeader =
        replaceAll "[crlf]".data "\r\n".data
          (replaceAll "[host]".data hostHeader payload))
    ∧ (∀ payload targetHost targetPort : List Char,
      connReplacePlaceholders payload targetHost targetPort [] =
        replaceAll "[crlf]".data "\r\n".data
          (replaceAll "[host]".data (joinHostPort targetHost targetPort) payload))
    ∧ (∀ host port : List Char, ':' ∉ host →
      joinHostPort host port = host ++ ':' :: port)
    ∧ (∀ host port : List Char, ':' ∈ host →
      joinHostPort host port = '[' :: (host ++ ']' :: ':' :: port))
    ∧ connReplacePlaceholders "GET / HTTP/1.1[crlf]Host: [host][crlf][crlf]".data
        "a.com".data "80".data [] = "GET / HTTP/1.1\r\nHost: a.com:80\r\n\r\n".data
    ∧ (∀ cfg : TunnelConfig, directEstablishWSArgs cfg =
        (cfg.httpPayload, cfg.sshHost, cfg.sshPort, cfg.sshHost)) := by
  refine ⟨?_, ?_, ?_, ?_, ?_, fun _ => rfl⟩
  · intro payload th tp hh h
    simp [connReplacePlaceholders, h]
  · intro payload th tp
    simp [connReplacePlaceholders]
  · intro host port h
    simp [joinHostPort, h]
  · intro host port h
    simp [joinHostPort, h]
  · simp [connReplacePlaceholders, joinHostPort, replaceAll, isPrefixB]

/-- Witness for C2 (amended): on the spec's colon-free example host the join
is the plain `host:port` concatenation. -/
theorem replace_placeholders_join_rule_witness :
    joinHostPort "a.com".data "80".data = "a.com".data ++ ':' :: "80".data :=
  replace_placeholders_join_rule.2.2.1 "a.com".data "80".data (by decide)

/-! ## Claim C3: the 101 acceptance rule -/

/-- C3 counterexample. A response whose status line is `HTTP/1.1 403
Forbidden` but which carries `101` in a later header line makes the live
(`internal/tunnel`) handshake succeed, although the claim requires failure for
every status line lacking the token `101`. -/
theorem ws_101_statusline_counterexample :
    (tunEstablishWS "x".data "h".data "1".data []
        "HTTP/1.1 403 Forbidden\r\nX-Info: 101\r\n\r\n".data).err = none
    ∧ containsB "101".data
        (statusLine "HTTP/1.1 403 Forbidden\r\nX-Info: 101\r\n\r\n".data) = false := by
  constructor
  · have hread : readHeaders [] "HTTP/1.1 403 Forbidden\r\nX-Info: 101\r\n\r\n".data =
        some ("HTTP/1.1 403 Forbidden\r\nX-Info: 101\r\n\r\n".data, []) := by decide
    have hc : containsB "101".data
        "HTTP/1.1 403 Forbidden\r\nX-Info: 101\r\n\r\n".data = true := by decide
    simp [tunEstablishWS, hread, hc]
  · decide

/-- C3 amended. The handshake succeeds iff the token is found anywhere in the
whole response header block — `101` for the `internal/tunnel` handshake,
`HTTP/1.1 101` or `HTTP/1.0 101` for the `pkg/connection` handshake — not
just in the status line; on any other response it fails and the returned
error carries the full response text. -/
theorem ws_upgrade_iff_token_in_block :
    (∀ payload targetHost targetPort frontDomain serverInput headers rest : List Char,
      readHeaders [] serverInput = some (headers, rest) →
      (((tunEstablishWS payload targetHost targetPort frontDomain serverInput).err = none) ↔
        containsB "101".data headers = true)
      ∧ (containsB "101".data headers = false →
        (tunEstablishWS payload targetHost targetPort frontDomain serverInput).err =
          some (.upgradeFailed headers)))
    ∧ (∀ payload targetHost targetPort hostHeader serverInput headers rest : List Char,
      payload ≠ [] →
      readHeaders [] serverInput = some (headers, rest) →
      (((connEstablishWS payload targetHost targetPort hostHeader serverInput).err = none) ↔
        (containsB "HTTP/1.1 101".data headers
          || containsB "HTTP/1.0 101".data headers) = true)
      ∧ ((containsB "HTTP/1.1 101".data headers
          || containsB "HTTP/1.0 101".data headers) = false →
        (connEstablishWS payload targetHost targetPort hostHeader serverInput).err =
          some (.upgradeFailed headers))) := by
  constructor
  · intro payload th tp fd si headers rest h
    by_cases hc : containsB "101".data headers = true <;>
      simp [tunEstablishWS, h, hc]
  · intro payload th tp hh si headers rest hp h
    by_cases hc : (containsB "HTTP/1.1 101".data headers
        || containsB "HTTP/1.0 101".data headers) = true <;>
      simp [connEstablishWS, hp, h, hc]

/-- Witness for C3 (amended): a `101` response upgrades successfully. -/
theorem ws_upgrade_iff_token_in_block_witness :
    (tunEstablishWS "x".data "h".data "1".data []
        "HTTP/1.1 101 OK\r\n\r\n".data).err = none := by
  have h := (ws_upgrade_iff_token_in_block.1 "x".data "h".data "1".data []
    "HTTP/1.1 101 OK\r\n\r\n".data "HTTP/1.1 101 OK\r\n\r\n".data [] (by decide)).1
  exact h.mpr (by decide)

/-! ## Claim C4: block handling -/

/-- C4 counterexample. For payload `A[crlf][crlf]B` the remaining block is
sent as `B\r\n\r\n` — with the terminator re-appended — not verbatim as `B`
as the claim states. -/
theorem ws_blocks_verbatim_counterexample :
    (tunEstablishWS "A[crlf][crlf]B".data "h".data "1".data []
        "HTTP/1.1 101\r\n\r\n".data).writes =
      ["A\r\n\r\n".data, "B\r\n\r\n".data]
    ∧ "B\r\n\r\n".data ≠ "B".data := by
  refine ⟨?_, by decide⟩
  have hsub : tunReplacePlaceholders "A[crlf][crlf]B".data "h".data "1".data [] =
      "A\r\n\r\nB".data := by
    simp [tunReplacePlaceholders, replaceAll, isPrefixB]
  have hsplit : goSplit "\r\n\r\n".data "A\r\n\r\nB".data = ["A".data, "B".data] := by
    simp [goSplit, isPrefixB]
  have hread : readHeaders [] "HTTP/1.1 101\r\n\r\n".data =
      some ("HTTP/1.1 101\r\n\r\n".data, []) := by decide
  have hc : containsB "101".data "HTTP/1.1 101\r\n\r\n".data = true := by decide
  simp only [tunEstablishWS, hsub, hsplit, hread, hc]
  decide

/-- C4 amended. The `internal/tunnel` handshake splits the substituted payload
at each `\r\n\r\n`, sends only the first block with the terminator re-appended
before reading the single response, and after a successful response sends each
remaining block whose `bytes.TrimSpace` is non-empty with the terminator
re-appended (whitespace-only blocks are skipped, and no block is sent
verbatim); on a failed response only the first block has been sent. The
`pkg/connection` handshake performs no splitting: it sends the entire
substituted payload in one write. -/
theorem ws_block_splitting_behaviour :
    (∀ payload targetHost targetPort frontDomain serverInput headers rest : List Char,
      readHeaders [] serverInput = some (headers, rest) →
      containsB "101".data headers = true →
      tunEstablishWS payload targetHost targetPort frontDomain serverInput =
        ⟨((goSplit "\r\n\r\n".data
              (tunReplacePlaceholders payload targetHost targetPort frontDomain)).headD []
            ++ "\r\n\r\n".data) ::
          (((goSplit "\r\n\r\n".data
              (tunReplacePlaceholders payload targetHost targetPort frontDomain)).drop 1).filter
            (fun b => b.any (fun c => !goIsSpace c))).map (· ++ "\r\n\r\n".data),
          headers.length, none⟩)
    ∧ (∀ payload targetHost targetPort frontDomain serverInput headers rest : List Char,
      readHeaders [] serverInput = some (headers, rest) →
      containsB "101".data headers = false →
      (tunEstablishWS payload targetHost targetPort frontDomain serverInput).writes =
        [(goSplit "\r\n\r\n".data
            (tunReplacePlaceholders payload targetHost targetPort frontDomain)).headD []
          ++ "\r\n\r\n".data])
    ∧ (∀ payload targetHost targetPort hostHeader serverInput : List Char, payload ≠ [] →
      (connEstablishWS payload targetHost targetPort hostHeader serverInput).writes =
        [connReplacePlaceholders payload targetHost targetPort hostHeader]) := by
  refine ⟨?_, ?_, ?_⟩
  · intro payload th tp fd si headers rest h hc
    simp [tunEstablishWS, h, hc]
  · intro payload th tp fd si headers rest h hc
    simp [tunEstablishWS, h, hc]
  · intro payload th tp hh si hp
    rcases h : readHeaders [] si with _ | ⟨headers, rest⟩
    · simp [connEstablishWS, hp, h]
    · by_cases hc : (containsB "HTTP/1.1 101".data headers
          || containsB "HTTP/1.0 101".data headers) = true <;>
        simp [connEstablishWS, hp, h, hc]

/-- Witness for C4 (amended): single-block payload `x`, successful upgrade. -/
theorem ws_block_splitting_behaviour_witness :
    tunEstablishWS "x".data "h".data "1".data [] "HTTP/1.1 101\r\n\r\n".data =
      ⟨["x\r\n\r\n".data], 16, none⟩ := by
  have h := ws_block_splitting_behaviour.1 "x".data "h".data "1".data []
    "HTTP/1.1 101\r\n\r\n".data "HTTP/1.1 101\r\n\r\n".data [] (by decide) (by decide)
  rw [h]
  have hsub : tunReplacePlaceholders "x".data "h".data "1".data [] = "x".data := by
    simp [tunReplacePlaceholders, replaceAll, isPrefixB]
  rw [hsub]
  have hsplit : goSplit "\r\n\r\n".data "x".data = ["x".data] := by
    simp [goSplit, isPrefixB]
  rw [hsplit]
  decide

/-! ## Claim C9: the empty payload -/

/-- C9 counterexample. With an empty payload the live (`internal/tunnel`)
handshake does not return the stream unchanged: it writes a bare `\r\n\r\n`
block, attempts to read a response, and (here, on a silent server) fails. -/
theorem ws_empty_payload_counterexample :
    tunEstablishWS [] "h".data "80".data [] [] =
      ⟨["\r\n\r\n".data], 0, some .readFailed⟩ := by
  have hsub : tunReplacePlaceholders [] "h".data "80".data [] = [] := by
    simp [tunReplacePlaceholders, replaceAll]
  have hsplit : goSplit "\r\n\r\n".data ([] : List Char) = [[]] := by
    simp [goSplit]
  simp [tunEstablishWS, hsub, hsplit, readHeaders]

/-- C9 amended. The `pkg/connection` handshake returns the stream unchanged on
an empty payload — no bytes written or read, no error; the `internal/tunnel`
handshake instead always writes one block, which for an empty payload is the
bare `\r\n\r\n` terminator, and then reads a response. -/
theorem ws_empty_payload_behaviour :
    (∀ targetHost targetPort hostHeader serverInput : List Char,
      connEstablishWS [] targetHost targetPort hostHeader serverInput = ⟨[], 0, none⟩)
    ∧ (∀ targetHost targetPort frontDomain serverInput : List Char,
      (tunEstablishWS [] targetHost targetPort frontDomain serverInput).writes =
        ["\r\n\r\n".data]) := by
  constructor
  · intro th tp hh si
    simp [connEstablishWS]
  · intro th tp fd si
    have hsub : tunReplacePlaceholders [] th tp fd = [] := by
      simp [tunReplacePlaceholders, replaceAll]
    have hsplit : goSplit "\r\n\r\n".data ([] : List Char) = [[]] := by
      simp [goSplit]
    rcases h : readHeaders [] si with _ | ⟨headers, rest⟩
    · simp [tunEstablishWS, hsub, hsplit, h]
    · by_cases hc : containsB "101".data headers = true <;>
        simp [tunEstablishWS, hsub, hsplit, h, hc]

/-! ## Claim C8: channel-open retry
(`dialWithRetry` in `internal/tunnel/ssh.go`; the same loop appears inline in
`openSSHChannel`, the channel open used by the SOCKS5 and HTTP CONNECT
ingress paths there). The dial oracle `d i` tells whether attempt `i`
(0-based) succeeds. -/

/-- Trace of a retried channel open: number of `ssh.Dial` attempts made, the
sleep durations (in seconds) between them, and whether a connection was
obtained. -/
structure RetryTrace where
  attempts : Nat
  sleeps : List Nat
  ok : Bool
  deriving DecidableEq, Repr

/-- The `for retries := 0; retries < 3; retries++` body of `dialWithRetry`:
on failure sleep `retries+1` seconds unless this was the last attempt. -/
def dialLoop (d : Nat → Bool) : Nat → Nat → List Nat → RetryTrace
  | 0, retries, sleeps => ⟨retries, sleeps.reverse, false⟩
  | fuel + 1, retries, sleeps =>
    if d retries then ⟨retries + 1, sleeps.reverse, true⟩
    else dialLoop d fuel (retries + 1) (if retries < 2 then (retries + 1) :: sleeps else sleeps)

/-- `dialWithRetry`: up to 3 attempts with linear backoff. -/
def dialWithRetry (d : Nat → Bool) : RetryTrace := dialLoop d 3 0 []

/-- C8. The standalone channel open is attempted at most 3 times, sleeping 1
second after the first failure and 2 seconds after the second; a success on
any attempt stops the retrying, and the open fails only after the third
attempt fails. -/
theorem dial_retry_three_attempts :
    ∀ d : Nat → Bool,
      ((dialWithRetry d).attempts ≤ 3)
      ∧ (d 0 = true → dialWithRetry d = ⟨1, [], true⟩)
      ∧ (d 0 = false → d 1 = true → dialWithRetry d = ⟨2, [1], true⟩)
      ∧ (d 0 = false → d 1 = false → d 2 = true → dialWithRetry d = ⟨3, [1, 2], true⟩)
      ∧ (d 0 = false → d 1 = false → d 2 = false → dialWithRetry d = ⟨3, [1, 2], false⟩) := by
  intro d
  refine ⟨?_, ?_, ?_, ?_, ?_⟩
  · rcases h0 : d 0 <;> rcases h1 : d 1 <;> rcases h2 : d 2 <;>
      simp [dialWithRetry, dialLoop, h0, h1, h2]
  · intro h0
    simp [dialWithRetry, dialLoop, h0]
  · intro h0 h1
    simp [dialWithRetry, dialLoop, h0, h1]
  · intro h0 h1 h2
    simp [dialWithRetry, dialLoop, h0, h1, h2]
  · intro h0 h1 h2
    simp [dialWithRetry, dialLoop, h0, h1, h2]

/-- Witness for C8: an oracle failing once then succeeding gives 2 attempts
and a single 1-second sleep. -/
theorem dial_retry_three_attempts_witness :
    dialWithRetry (fun i => decide (i = 1)) = ⟨2, [1], true⟩ :=
  ((dial_retry_three_attempts (fun i => decide (i = 1))).2.2.1) (by decide) (by decide)

end Tunn
